import Mathlib

/-!
Shallow embedding of `src/components/Recorder.js` (h5p-audio-recorder).

The recorder is a small state machine coordinating:
* a memoized one-shot microphone acquisition (`grabMic` / `navigator.mediaDevices.getUserMedia`),
* a frame-forwarding gate (`scriptProcessorNode.onaudioprocess`),
* a message protocol with an encoder worker (`init` / `record` / `clear` / `export-wav`),
* event signals (`recording` / `inactive` / `blocked` / forwarded worker replies).

Each JavaScript method is embedded as a pure function
`Recorder → Recorder × List Action` returning the updated instance state and the
ordered list of externally observable actions it performs (platform permission
requests, worker `postMessage` calls, event triggers, listener registrations).
Asynchronous promise continuations (`.then` / `.catch` of `grabMic`, promise
settlement by the platform, worker replies) are separate atomic steps of a
small-step relation `Step`; `Reach` collects the traces of all executions.
-/

namespace RecorderSpec

/-- Recording states: `const RecorderState = { inactive, recording }`. -/
inductive RecorderState
  | inactive
  | recording
deriving DecidableEq, Repr

/-- The string name of a state, as used by `this.trigger(this.state)`. -/
def stateName : RecorderState → String
  | RecorderState.inactive => "inactive"
  | RecorderState.recording => "recording"

/-- A raw PCM sample. The float values are opaque payloads for the recorder:
they are produced by the platform and forwarded untouched, so they are modelled
by an abstract numeric carrier. -/
abbrev Sample := Int

/-- One buffer-length batch of samples for a single channel. -/
abbrev PCMFrame := List Sample

/-- An opaque binary artifact delivered by the worker (the WAV blob). -/
structure Blob where
  bid : Nat
deriving DecidableEq, Repr

/-- The retrievable reference produced by `URL.createObjectURL(blob)`. -/
structure BlobURL where
  blob : Blob
deriving DecidableEq, Repr

/-- Model of `URL.createObjectURL`: wraps a blob into a retrievable reference. -/
def createObjectURL (b : Blob) : BlobURL := BlobURL.mk b

/-- `e.inputBuffer.getChannelData(n)`: channel `n` of a delivered buffer. -/
def getChannelData (inputBuffer : List PCMFrame) (n : Nat) : PCMFrame :=
  inputBuffer.getD n []

/-- Messages posted by the controller to the encoder worker
(`this.worker.postMessage({command: ...})`). -/
inductive WorkerCommand
  | init (sampleRate : Nat) (numChannels : Nat)
  | record (buffer : List PCMFrame)
  | clear
  | exportWav
deriving DecidableEq, Repr

/-- Payload attached to a triggered event (`this.trigger(name, data)`).
`blobData` models the worker blob forwarded by `worker.onmessage`;
`codeData` models a string error code (the payload the spec discusses for
the `blocked` signal). -/
inductive EventPayload
  | blobData (b : Blob)
  | codeData (c : String)
deriving DecidableEq, Repr

/-- Externally observable actions of one atomic step, in order. -/
inductive Action
  | getUserMedia
  | post (m : WorkerCommand)
  | registerOnce (channel : String)
  | emit (signal : String) (payload : Option EventPayload)
deriving DecidableEq, Repr

/-- The memoization slot `this.userMedia`. `noPromise` is the initial
`undefined`; `pending` is a created but unsettled promise; `resolved` and
`rejected` are the settled outcomes (a rejection carries the classified code
of the `{code, error}` rejection value). -/
inductive GrantSlot
  | noPromise
  | pending
  | resolved
  | rejected (code : String)
deriving DecidableEq, Repr

/-- `this.config = { bufferLength: 4096, numChannels: 1 }`. -/
structure AudioConfig where
  bufferLength : Nat
  numChannels : Nat
deriving DecidableEq, Repr

/-- The constructor's configuration values. -/
def recorderConfig : AudioConfig := AudioConfig.mk 4096 1

/-- A platform error object as far as `_errorToCode` inspects it: an optional
`name` field (`none` models a missing name, `some ""` an empty falsy one). -/
structure JsError where
  name : Option String
deriving DecidableEq, Repr

/-- `const errorMessageToCodeMap = { PermissionDeniedError: 'permission-denied',
NotAllowedError: 'permission-denied' }`, as a lookup. -/
def errorMessageToCodeMap (key : String) : Option String :=
  if key = "PermissionDeniedError" then some "permission-denied"
  else if key = "NotAllowedError" then some "permission-denied"
  else none

/-- `_errorToCode(e)`: `if (e.name && errorMessageToCodeMap[e.name]) return
errorMessageToCodeMap[e.name]; return 'unknown';` (a missing or empty `name`
is falsy). -/
def _errorToCode (e : JsError) : String :=
  match e.name with
  | some n =>
    if n ≠ "" then
      match errorMessageToCodeMap n with
      | some code => code
      | none => "unknown"
    else "unknown"
  | none => "unknown"

/-- Presence of the platform primitives probed by `supported()`:
`window.AudioContext`, `navigator.mediaDevices`,
`navigator.mediaDevices.getUserMedia` (each flag is the truthiness of the
corresponding feature). -/
structure Platform where
  hasAudioContext : Bool
  hasMediaDevices : Bool
  hasGetUserMedia : Bool
deriving DecidableEq, Repr

/-- `supported()`: `window.AudioContext !== undefined && navigator.mediaDevices
&& navigator.mediaDevices.getUserMedia`. -/
def supported (p : Platform) : Bool :=
  p.hasAudioContext && p.hasMediaDevices && p.hasGetUserMedia

/-- The mutable instance state of one `Recorder`. `pendingStarts` counts the
`start()` continuations attached to the grant promise and not yet run;
`wavListeners` counts registered `once('wav-delivered', ...)` listeners;
`wavResolved` collects the object URLs with which `getWavURL()` promises have
resolved. -/
structure Recorder where
  state : RecorderState
  userMedia : GrantSlot
  pendingStarts : Nat
  wavListeners : Nat
  wavResolved : List BlobURL
deriving DecidableEq, Repr

/-- The instance as the constructor leaves it: state `inactive`, no grant
requested, no continuations, no listeners. -/
def initialRecorder : Recorder :=
  Recorder.mk RecorderState.inactive GrantSlot.noPromise 0 0 []

/-- `_setState(state)`: `this.state = state; this.trigger(this.state);`
(the trigger carries no payload). -/
def _setState (w : Recorder) (s : RecorderState) : Recorder × List Action :=
  ({w with state := s}, [Action.emit (stateName s) none])

/-- `stop()`: `this._setState(RecorderState.inactive)`. -/
def stop (w : Recorder) : Recorder × List Action :=
  _setState w RecorderState.inactive

/-- `reset()`: force inactive, then post `clear` to the worker. -/
def reset (w : Recorder) : Recorder × List Action :=
  let r := _setState w RecorderState.inactive
  (r.1, r.2 ++ [Action.post WorkerCommand.clear])

/-- `grabMic()`: when `this.userMedia === undefined`, create the promise (which
issues the single `getUserMedia` platform request) and memoize it; otherwise
return the memoized promise unchanged, performing nothing. -/
def grabMic (w : Recorder) : Recorder × List Action :=
  if w.userMedia = GrantSlot.noPromise then
    ({w with userMedia := GrantSlot.pending}, [Action.getUserMedia])
  else
    (w, [])

/-- `start()`: `this.grabMic().then(...).catch(...)`. Calling it requests the
grant (memoized) and attaches one success/failure continuation; the
continuation itself runs later as a `runStartCont` step. -/
def start (w : Recorder) : Recorder × List Action :=
  let r := grabMic w
  ({r.1 with pendingStarts := r.1.pendingStarts + 1}, r.2)

/-- The body of the `.then` success handler inside `grabMic`'s promise: wire
the source node into the script processor, post `init {sampleRate,
numChannels}` to the worker, then resolve the memoized promise. `sampleRate`
is the value negotiated by the platform (`this.sourceNode.context.sampleRate`). -/
def grantSuccess (w : Recorder) (sampleRate : Nat) : Recorder × List Action :=
  ({w with userMedia := GrantSlot.resolved},
   [Action.post (WorkerCommand.init sampleRate recorderConfig.numChannels)])

/-- The body of the `.catch` handler inside `grabMic`'s promise: reject the
memoized promise with `{code: this._errorToCode(e), error: e}`. -/
def grantFailure (w : Recorder) (e : JsError) : Recorder × List Action :=
  ({w with userMedia := GrantSlot.rejected (_errorToCode e)}, [])

/-- Running one queued `start()` continuation after the grant settled:
on resolution `this._setState(RecorderState.recording)`; on rejection
`this.trigger('blocked')` (no payload). Unsettled grants run nothing. -/
def runStartCont (w : Recorder) : Recorder × List Action :=
  match w.userMedia with
  | GrantSlot.resolved =>
    _setState {w with pendingStarts := w.pendingStarts - 1} RecorderState.recording
  | GrantSlot.rejected _ =>
    ({w with pendingStarts := w.pendingStarts - 1}, [Action.emit "blocked" none])
  | _ => (w, [])

/-- `scriptProcessorNode.onaudioprocess`: when recording, post
`{command: 'record', buffer: [e.inputBuffer.getChannelData(0)]}`; otherwise
drop the frame with no effect at all. -/
def onaudioprocess (w : Recorder) (inputBuffer : List PCMFrame) :
    Recorder × List Action :=
  if w.state = RecorderState.recording then
    (w, [Action.post (WorkerCommand.record [getChannelData inputBuffer 0])])
  else
    (w, [])

/-- `getWavURL()`: `this.stop()`, then create the promise whose executor
registers `this.once('wav-delivered', ...)`, then post `export-wav`. -/
def getWavURL (w : Recorder) : Recorder × List Action :=
  let r := stop w
  ({r.1 with wavListeners := r.1.wavListeners + 1},
   r.2 ++ [Action.registerOnce "wav-delivered", Action.post WorkerCommand.exportWav])

/-- `worker.onmessage`: `self.trigger(e.data.command, e.data.blob)`. A
`wav-delivered` trigger fires every registered one-shot listener, each
resolving its promise with `URL.createObjectURL(e.data)` and unregistering. -/
def onWorkerMessage (w : Recorder) (command : String) (blob : Blob) :
    Recorder × List Action :=
  if command = "wav-delivered" then
    ({w with wavListeners := 0,
             wavResolved :=
               w.wavResolved ++ List.replicate w.wavListeners (createObjectURL blob)},
     [Action.emit command (some (EventPayload.blobData blob))])
  else
    (w, [Action.emit command (some (EventPayload.blobData blob))])

/-- One atomic step of a recorder execution: a public method call, a platform
settlement of the pending grant, one queued `start()` continuation, a frame
delivery, or a worker reply. -/
inductive Step : Recorder → List Action → Recorder → Prop
  | callStart (w : Recorder) : Step w (start w).2 (start w).1
  | callStop (w : Recorder) : Step w (stop w).2 (stop w).1
  | callReset (w : Recorder) : Step w (reset w).2 (reset w).1
  | callGetWav (w : Recorder) : Step w (getWavURL w).2 (getWavURL w).1
  | deliverFrame (w : Recorder) (inputBuffer : List PCMFrame) :
      Step w (onaudioprocess w inputBuffer).2 (onaudioprocess w inputBuffer).1
  | settleOk (w : Recorder) (sampleRate : Nat) :
      w.userMedia = GrantSlot.pending →
      Step w (grantSuccess w sampleRate).2 (grantSuccess w sampleRate).1
  | settleErr (w : Recorder) (e : JsError) :
      w.userMedia = GrantSlot.pending →
      Step w (grantFailure w e).2 (grantFailure w e).1
  | runCont (w : Recorder) :
      w.pendingStarts ≠ 0 →
      (w.userMedia = GrantSlot.resolved ∨ ∃ c, w.userMedia = GrantSlot.rejected c) →
      Step w (runStartCont w).2 (runStartCont w).1
  | workerReply (w : Recorder) (command : String) (blob : Blob) :
      Step w (onWorkerMessage w command blob).2 (onWorkerMessage w command blob).1

/-- Reachability from the freshly constructed instance, with the accumulated
trace of observable actions. -/
inductive Reach : Recorder → List Action → Prop
  | origin : Reach initialRecorder []
  | step {w : Recorder} {tr : List Action} {acts : List Action} {w' : Recorder} :
      Reach w tr → Step w acts w' → Reach w' (tr ++ acts)

/-- Reachability from an arbitrary instance state, with the actions of the
suffix of the execution. -/
inductive ReachFrom : Recorder → List Action → Recorder → Prop
  | refl (w : Recorder) : ReachFrom w [] w
  | step {w : Recorder} {tr : List Action} {u : Recorder} {acts : List Action}
      {u' : Recorder} :
      ReachFrom w tr u → Step u acts u' → ReachFrom w (tr ++ acts) u'

/-- Number of platform permission requests (`getUserMedia` calls) in a trace. -/
def countGUM : List Action → Nat
  | [] => 0
  | Action.getUserMedia :: rest => countGUM rest + 1
  | _ :: rest => countGUM rest

theorem countGUM_append (t1 t2 : List Action) :
    countGUM (t1 ++ t2) = countGUM t1 + countGUM t2 := by
  induction t1 with
  | nil => simp [countGUM]
  | cons a rest ih =>
    cases a with
    | getUserMedia => simp [countGUM, ih]; omega
    | post m => simp [countGUM, ih]
    | registerOnce c => simp [countGUM, ih]
    | emit s p => simp [countGUM, ih]

/-- Is this action the posting of an `init` message to the worker? -/
def isInitPost : Action → Bool
  | Action.post (WorkerCommand.init _ _) => true
  | _ => false

/-- Is this action the posting of a `record` message to the worker? -/
def isRecordPost : Action → Bool
  | Action.post (WorkerCommand.record _) => true
  | _ => false

/-- Whether an `init` post has been seen after scanning a trace, starting from
flag `s`. -/
def seenInitAfter : List Action → Bool → Bool
  | [], s => s
  | a :: rest, s => seenInitAfter rest (s || isInitPost a)

/-- Scanning a trace with flag `s` (an `init` post already seen), checks that
every `record` post occurs strictly after some `init` post. -/
def recordsAfterInit : List Action → Bool → Bool
  | [], _ => true
  | a :: rest, s => ((!isRecordPost a) || s) && recordsAfterInit rest (s || isInitPost a)

theorem seenInitAfter_append (t1 t2 : List Action) (s : Bool) :
    seenInitAfter (t1 ++ t2) s = seenInitAfter t2 (seenInitAfter t1 s) := by
  induction t1 generalizing s with
  | nil => simp [seenInitAfter]
  | cons a rest ih => simp [seenInitAfter, ih]

theorem seenInitAfter_true (t : List Action) :
    seenInitAfter t true = true := by
  induction t with
  | nil => rfl
  | cons a rest ih => simp [seenInitAfter, ih]

theorem recordsAfterInit_append (t1 t2 : List Action) (s : Bool) :
    recordsAfterInit (t1 ++ t2) s =
      (recordsAfterInit t1 s && recordsAfterInit t2 (seenInitAfter t1 s)) := by
  induction t1 generalizing s with
  | nil => simp [recordsAfterInit, seenInitAfter]
  | cons a rest ih => simp [recordsAfterInit, seenInitAfter, ih, Bool.and_assoc]

theorem recordsAfterInit_true (t : List Action) :
    recordsAfterInit t true = true := by
  induction t with
  | nil => rfl
  | cons a rest ih => simp [recordsAfterInit, ih]

/-- The core execution invariant: the number of issued platform permission
requests is `0` before the memoization slot is filled and `1` forever after;
a resolved grant means an `init` message is already in the trace; the state
can only be `recording` with a resolved grant; and every `record` message in
the trace is strictly preceded by an `init` message. -/
theorem reach_invariant {w : Recorder} {tr : List Action} (h : Reach w tr) :
    countGUM tr = (if w.userMedia = GrantSlot.noPromise then 0 else 1) ∧
    (w.userMedia = GrantSlot.resolved → seenInitAfter tr false = true) ∧
    (w.state = RecorderState.recording → w.userMedia = GrantSlot.resolved) ∧
    recordsAfterInit tr false = true := by
  induction h with
  | origin => simp [initialRecorder, countGUM, seenInitAfter, recordsAfterInit]
  | step hr hs ih =>
    rename_i u tr0 acts0 wnext
    obtain ⟨ih1, ih2, ih3, ih4⟩ := ih
    cases hs with
    | callStart =>
      by_cases hm : u.userMedia = GrantSlot.noPromise
      · refine ⟨?_, ?_, ?_, ?_⟩
        · simp only [countGUM_append, start, grabMic, hm, if_pos]
          simp only [hm, if_pos] at ih1
          simp [countGUM, ih1]
        · simp [start, grabMic, hm]
        · intro hrec
          simp only [start, grabMic, hm, if_pos] at hrec
          have hres := ih3 hrec
          rw [hm] at hres
          exact GrantSlot.noConfusion hres
        · simp [recordsAfterInit_append, start, grabMic, hm, ih4,
                recordsAfterInit, isRecordPost, isInitPost]
      · refine ⟨?_, ?_, ?_, ?_⟩
        · simp [countGUM_append, start, grabMic, hm, countGUM, ih1]
        · intro hres
          simp only [start, grabMic, hm, if_neg] at hres
          simp only [start, grabMic, hm, if_neg, List.append_nil]
          simp [seenInitAfter_append, ih2 hres, seenInitAfter]
        · intro hrec
          simp only [start, grabMic, hm, if_neg] at hrec ⊢
          exact ih3 hrec
        · simp [recordsAfterInit_append, start, grabMic, hm, ih4, recordsAfterInit]
    | callStop =>
      refine ⟨?_, ?_, ?_, ?_⟩
      · simp [countGUM_append, stop, _setState, countGUM, ih1]
      · intro hres
        simp only [stop, _setState] at hres
        simp [seenInitAfter_append, seenInitAfter, isInitPost, stop, _setState,
              seenInitAfter_true, ih2 hres]
      · intro hrec
        simp [stop, _setState] at hrec
      · simp [recordsAfterInit_append, stop, _setState, ih4, recordsAfterInit,
              isRecordPost, isInitPost]
    | callReset =>
      refine ⟨?_, ?_, ?_, ?_⟩
      · simp [countGUM_append, reset, _setState, countGUM, ih1]
      · intro hres
        simp only [reset, _setState] at hres
        simp [seenInitAfter_append, seenInitAfter, isInitPost, reset, _setState,
              seenInitAfter_true, ih2 hres]
      · intro hrec
        simp [reset, _setState] at hrec
      · simp [recordsAfterInit_append, reset, _setState, ih4, recordsAfterInit,
              isRecordPost, isInitPost]
    | callGetWav =>
      refine ⟨?_, ?_, ?_, ?_⟩
      · simp [countGUM_append, getWavURL, stop, _setState, countGUM, ih1]
      · intro hres
        simp only [getWavURL, stop, _setState] at hres
        simp [seenInitAfter_append, seenInitAfter, isInitPost, getWavURL, stop,
              _setState, seenInitAfter_true, ih2 hres]
      · intro hrec
        simp [getWavURL, stop, _setState] at hrec
      · simp [recordsAfterInit_append, getWavURL, stop, _setState, ih4,
              recordsAfterInit, isRecordPost, isInitPost]
    | deliverFrame inputBuffer =>
      by_cases hrec : u.state = RecorderState.recording
      · refine ⟨?_, ?_, ?_, ?_⟩
        · simp [countGUM_append, onaudioprocess, hrec, countGUM, ih1]
        · intro hres
          simp only [onaudioprocess, hrec, if_pos] at hres
          simp [seenInitAfter_append, seenInitAfter, isInitPost, onaudioprocess,
                hrec, seenInitAfter_true, ih2 hres]
        · intro _
          simpa [onaudioprocess, hrec] using ih3 hrec
        · have hseen : seenInitAfter tr0 false = true := ih2 (ih3 hrec)
          simp [recordsAfterInit_append, onaudioprocess, hrec, ih4,
                recordsAfterInit, isRecordPost, isInitPost, hseen]
      · refine ⟨?_, ?_, ?_, ?_⟩
        · simp [countGUM_append, onaudioprocess, hrec, countGUM, ih1]
        · intro hres
          simp only [onaudioprocess, hrec, if_neg] at hres
          simp [seenInitAfter_append, seenInitAfter, onaudioprocess, hrec, ih2 hres]
        · intro hrec2
          simp only [onaudioprocess, hrec, if_neg] at hrec2 ⊢
          exact ih3 hrec2
        · simp [recordsAfterInit_append, onaudioprocess, hrec, ih4, recordsAfterInit]
    | settleOk sampleRate hpend =>
      refine ⟨?_, ?_, ?_, ?_⟩
      · have : ¬ u.userMedia = GrantSlot.noPromise := by
          rw [hpend]; exact fun hx => GrantSlot.noConfusion hx
        simp [countGUM_append, grantSuccess, countGUM, ih1, this]
      · intro _
        simp [seenInitAfter_append, grantSuccess, seenInitAfter, isInitPost]
      · intro _
        simp [grantSuccess]
      · simp [recordsAfterInit_append, grantSuccess, ih4, recordsAfterInit,
              isRecordPost, isInitPost]
    | settleErr e hpend =>
      refine ⟨?_, ?_, ?_, ?_⟩
      · have : ¬ u.userMedia = GrantSlot.noPromise := by
          rw [hpend]; exact fun hx => GrantSlot.noConfusion hx
        simp [countGUM_append, grantFailure, countGUM, ih1, this]
      · intro hres
        simp [grantFailure] at hres
      · intro hrec
        simp only [grantFailure] at hrec
        have hres := ih3 hrec
        rw [hpend] at hres
        exact GrantSlot.noConfusion hres
      · simp [recordsAfterInit_append, grantFailure, ih4, recordsAfterInit]
    | runCont hne hset =>
      rcases hset with hres | ⟨c, hrej⟩
      · refine ⟨?_, ?_, ?_, ?_⟩
        · have : ¬ u.userMedia = GrantSlot.noPromise := by
            rw [hres]; exact fun hx => GrantSlot.noConfusion hx
          simp [countGUM_append, runStartCont, hres, _setState, countGUM, ih1, this]
        · intro _
          simp [seenInitAfter_append, runStartCont, hres, _setState, seenInitAfter,
                isInitPost, seenInitAfter_true, ih2 hres]
        · intro _
          simp [runStartCont, hres, _setState, hres]
        · simp [recordsAfterInit_append, runStartCont, hres, _setState, ih4,
                recordsAfterInit, isRecordPost, isInitPost]
      · refine ⟨?_, ?_, ?_, ?_⟩
        · have : ¬ u.userMedia = GrantSlot.noPromise := by
            rw [hrej]; exact fun hx => GrantSlot.noConfusion hx
          simp [countGUM_append, runStartCont, hrej, countGUM, ih1, this]
        · intro hres2
          simp [runStartCont, hrej] at hres2
        · intro hrec
          simp only [runStartCont, hrej] at hrec
          have hres := ih3 hrec
          rw [hrej] at hres
          exact GrantSlot.noConfusion hres
        · simp [recordsAfterInit_append, runStartCont, hrej, ih4, recordsAfterInit,
                isRecordPost, isInitPost]
    | workerReply command blob =>
      by_cases hcmd : command = "wav-delivered"
      · refine ⟨?_, ?_, ?_, ?_⟩
        · simp [countGUM_append, onWorkerMessage, hcmd, countGUM, ih1]
        · intro hres
          simp only [onWorkerMessage, hcmd, if_pos] at hres
          simp [seenInitAfter_append, onWorkerMessage, hcmd, seenInitAfter,
                isInitPost, ih2 hres]
        · intro hrec
          simp only [onWorkerMessage, hcmd, if_pos] at hrec ⊢
          exact ih3 hrec
        · simp [recordsAfterInit_append, onWorkerMessage, hcmd, ih4,
                recordsAfterInit, isRecordPost, isInitPost]
      · refine ⟨?_, ?_, ?_, ?_⟩
        · simp [countGUM_append, onWorkerMessage, hcmd, countGUM, ih1]
        · intro hres
          simp only [onWorkerMessage, hcmd, if_neg] at hres
          simp [seenInitAfter_append, onWorkerMessage, hcmd, seenInitAfter,
                isInitPost, ih2 hres]
        · intro hrec
          simp only [onWorkerMessage, hcmd, if_neg] at hrec ⊢
          exact ih3 hrec
        · simp [recordsAfterInit_append, onWorkerMessage, hcmd, ih4,
                recordsAfterInit, isRecordPost, isInitPost]

/-- A recorder captured mid-recording (grant resolved, state `recording`),
used to exercise the frame-forwarding gate. -/
def forwardDemo : Recorder :=
  Recorder.mk RecorderState.recording GrantSlot.resolved 0 0 []

/-- A recorder whose grant already resolved and which is currently recording,
used to exercise a repeated `start()` call. -/
def recordingDemo : Recorder :=
  Recorder.mk RecorderState.recording GrantSlot.resolved 0 0 []

/-- A recorder whose memoized grant has already been rejected with the
classified code `permission-denied`. -/
def deniedDemo : Recorder :=
  Recorder.mk RecorderState.inactive (GrantSlot.rejected "permission-denied") 0 0 []

/-- Claim C1: per `Recorder` instance the platform permission request
(`getUserMedia`) is issued at most once across any execution, however many
times `grabMic()` or `start()` run (including repeated invocations before the
first result settles), and any `grabMic()` call after the first returns the
same memoized result, changing nothing and performing no action. -/
theorem grabMic_single_request {w : Recorder} {tr : List Action} (h : Reach w tr) :
    countGUM tr ≤ 1 ∧ grabMic (grabMic w).1 = ((grabMic w).1, []) := by
  obtain ⟨h1, _, _, _⟩ := reach_invariant h
  constructor
  · rw [h1]
    split <;> omega
  · by_cases hm : w.userMedia = GrantSlot.noPromise <;> simp [grabMic, hm]

/-- Witness for C1: an execution with two back-to-back `start()` calls issues
exactly one `getUserMedia` request, and a further `grabMic()` is a no-op. -/
theorem grabMic_single_request_witness :
    countGUM [Action.getUserMedia] ≤ 1 ∧
    grabMic (grabMic (start (start initialRecorder).1).1).1 =
      ((grabMic (start (start initialRecorder).1).1).1, []) :=
  grabMic_single_request
    (Reach.step (Reach.step Reach.origin (Step.callStart initialRecorder))
      (Step.callStart (start initialRecorder).1))

/-- Claim C2: the frame forwarder (`onaudioprocess`) posts a `record` message
carrying the channel-0 samples exactly when the state is `recording` at
delivery; otherwise the frame is dropped with no action and no state change. -/
theorem onaudioprocess_gate (w : Recorder) (inputBuffer : List PCMFrame) :
    (w.state = RecorderState.recording →
      onaudioprocess w inputBuffer =
        (w, [Action.post (WorkerCommand.record [getChannelData inputBuffer 0])])) ∧
    (w.state ≠ RecorderState.recording →
      onaudioprocess w inputBuffer = (w, [])) := by
  constructor <;> intro h <;> simp [onaudioprocess, h]

/-- Witness for C2: a concrete frame is forwarded while recording and dropped
while inactive. -/
theorem onaudioprocess_gate_witness :
    onaudioprocess forwardDemo [[3, 4]] =
      (forwardDemo, [Action.post (WorkerCommand.record [[3, 4]])]) ∧
    onaudioprocess initialRecorder [[3, 4]] = (initialRecorder, []) :=
  ⟨(onaudioprocess_gate forwardDemo [[3, 4]]).1 rfl,
   (onaudioprocess_gate initialRecorder [[3, 4]]).2 (by decide)⟩

/-- Claim C3: `getWavURL()` performs, in order: the forced `stop()` (its
`inactive` trigger comes first and the resulting state is `inactive`), the
one-shot `wav-delivered` listener registration, then the `export-wav` post;
when the `wav-delivered` reply arrives the deferred result resolves with a
retrievable object-URL reference to the delivered blob. -/
theorem getWavURL_sequence (w : Recorder) (b : Blob) :
    (getWavURL w).2 =
      [Action.emit "inactive" none, Action.registerOnce "wav-delivered",
       Action.post WorkerCommand.exportWav] ∧
    (getWavURL w).1.state = RecorderState.inactive ∧
    (getWavURL w).1.wavListeners = w.wavListeners + 1 ∧
    (onWorkerMessage (getWavURL w).1 "wav-delivered" b).1.wavResolved =
      (getWavURL w).1.wavResolved ++
        List.replicate ((getWavURL w).1.wavListeners) (createObjectURL b) ∧
    createObjectURL b ∈ (onWorkerMessage (getWavURL w).1 "wav-delivered" b).1.wavResolved ∧
    (createObjectURL b).blob = b := by
  refine ⟨rfl, rfl, rfl, ?_, ?_, rfl⟩
  · simp [onWorkerMessage, getWavURL, stop, _setState]
  · simp [onWorkerMessage, getWavURL, stop, _setState, createObjectURL,
          List.mem_append, List.mem_replicate]

/-- Claim C4: the error classifier is a pure exact-match mapping: exactly
`NotAllowedError` and `PermissionDeniedError` map to `permission-denied`; any
other name, or a missing name, maps to `unknown`. -/
theorem errorToCode_exact (n : String) (hn1 : n ≠ "NotAllowedError")
    (hn2 : n ≠ "PermissionDeniedError") :
    _errorToCode (JsError.mk (some "NotAllowedError")) = "permission-denied" ∧
    _errorToCode (JsError.mk (some "PermissionDeniedError")) = "permission-denied" ∧
    _errorToCode (JsError.mk none) = "unknown" ∧
    _errorToCode (JsError.mk (some n)) = "unknown" := by
  refine ⟨rfl, rfl, rfl, ?_⟩
  by_cases h0 : n = ""
  · simp [_errorToCode, h0]
  · simp [_errorToCode, errorMessageToCodeMap, hn1, hn2, h0]

/-- Witness for C4 at the identifier `SomethingElseError` (the spec scenario). -/
theorem errorToCode_exact_witness :
    _errorToCode (JsError.mk (some "NotAllowedError")) = "permission-denied" ∧
    _errorToCode (JsError.mk (some "PermissionDeniedError")) = "permission-denied" ∧
    _errorToCode (JsError.mk none) = "unknown" ∧
    _errorToCode (JsError.mk (some "SomethingElseError")) = "unknown" :=
  errorToCode_exact "SomethingElseError" (by decide) (by decide)

/-- Claim C5 counterexample: on the failure path with classified code
`permission-denied`, the `blocked` trigger carries no payload at all, so the
signal does not carry the classified error code as the claim states. -/
theorem start_blocked_payload_cex :
    (runStartCont (grantFailure (start initialRecorder).1
        (JsError.mk (some "NotAllowedError"))).1).2 = [Action.emit "blocked" none] ∧
    ¬ Action.emit "blocked" (some (EventPayload.codeData "permission-denied")) ∈
        (runStartCont (grantFailure (start initialRecorder).1
          (JsError.mk (some "NotAllowedError"))).1).2 := by
  constructor
  · decide
  · decide

/-- Claim C5 (amended): when the microphone grant fails, the `start()` failure
path leaves the recording state unchanged and emits exactly one payload-less
`blocked` signal; the classified error code is stored in the memoized
rejection (not attached to the signal), and the rejection never surfaces to
the caller (the path performs no action besides the `blocked` trigger). -/
theorem start_blocked_on_failure (w : Recorder) (e : JsError) :
    (grantFailure (start w).1 e).2 = [] ∧
    (grantFailure (start w).1 e).1.state = w.state ∧
    (grantFailure (start w).1 e).1.userMedia = GrantSlot.rejected (_errorToCode e) ∧
    (runStartCont (grantFailure (start w).1 e).1).1.state = w.state ∧
    (runStartCont (grantFailure (start w).1 e).1).2 = [Action.emit "blocked" none] := by
  by_cases hm : w.userMedia = GrantSlot.noPromise <;>
    simp [start, grabMic, grantFailure, runStartCont, hm]

/-- Claim C6: in every execution, an `init` message is posted to the worker
strictly before the first `record` message. -/
theorem init_precedes_first_record {w : Recorder} {tr : List Action}
    (h : Reach w tr) :
    recordsAfterInit tr false = true :=
  (reach_invariant h).2.2.2

/-- Witness for C6: a complete successful run (start, grant success at 48000
Hz, continuation, one frame) whose trace places `init` before `record`. -/
theorem init_precedes_first_record_witness :
    recordsAfterInit
      [Action.getUserMedia,
       Action.post (WorkerCommand.init 48000 1),
       Action.emit "recording" none,
       Action.post (WorkerCommand.record [[5]])] false = true :=
  init_precedes_first_record
    (Reach.step (Reach.step (Reach.step (Reach.step Reach.origin
      (Step.callStart initialRecorder))
      (Step.settleOk (start initialRecorder).1 48000 rfl))
      (Step.runCont (grantSuccess (start initialRecorder).1 48000).1 (by decide)
        (Or.inl rfl)))
      (Step.deliverFrame
        (runStartCont (grantSuccess (start initialRecorder).1 48000).1).1 [[5]]))

/-- Claim C7: `stop()` is total and idempotent: from any state it sets the
state to `inactive` and emits exactly one payload-less `inactive` signal and
nothing else (in particular no worker message); repeating it on an already
inactive instance re-emits `inactive` and changes nothing. -/
theorem stop_idempotent (w : Recorder) :
    stop w = ({w with state := RecorderState.inactive}, [Action.emit "inactive" none]) ∧
    stop (stop w).1 = ((stop w).1, [Action.emit "inactive" none]) := by
  constructor
  · rfl
  · cases w
    rfl

/-- Claim C8: `supported()` is a pure boolean probe of the platform features,
true exactly when audio-context construction and media-capture access
(`mediaDevices` and its `getUserMedia`) are all present. -/
theorem supported_pure_probe (p : Platform) :
    supported p = true ↔
      (p.hasAudioContext = true ∧ p.hasMediaDevices = true ∧ p.hasGetUserMedia = true) := by
  simp [supported, Bool.and_eq_true, and_assoc]

/-- Helper for C9: once the memoized grant is rejected (and the state is
inactive), every later reachable state still holds the same rejection, is
still inactive, and the suffix issues no further permission request. -/
theorem rejected_preserved {w : Recorder} {acts : List Action} {u : Recorder}
    {c : String} (h : ReachFrom w acts u)
    (hrej : w.userMedia = GrantSlot.rejected c)
    (hst : w.state = RecorderState.inactive) :
    u.userMedia = GrantSlot.rejected c ∧ u.state = RecorderState.inactive ∧
    countGUM acts = 0 := by
  induction h with
  | refl => exact ⟨hrej, hst, rfl⟩
  | step hr hs ih =>
    rename_i tr1 mid acts1 fin
    obtain ⟨ih1, ih2, ih3⟩ := ih
    have hm : ¬ mid.userMedia = GrantSlot.noPromise := by
      rw [ih1]; exact fun hx => GrantSlot.noConfusion hx
    cases hs with
    | callStart =>
      simp [countGUM_append, start, grabMic, hm, ih1, ih2, ih3, countGUM]
    | callStop =>
      simp [countGUM_append, stop, _setState, ih1, ih2, ih3, countGUM]
    | callReset =>
      simp [countGUM_append, reset, _setState, ih1, ih2, ih3, countGUM]
    | callGetWav =>
      simp [countGUM_append, getWavURL, stop, _setState, ih1, ih2, ih3, countGUM]
    | deliverFrame inputBuffer =>
      have hnr : ¬ mid.state = RecorderState.recording := by
        rw [ih2]; exact fun hx => RecorderState.noConfusion hx
      simp [countGUM_append, onaudioprocess, hnr, ih1, ih2, ih3, countGUM]
    | settleOk sampleRate hpend =>
      rw [ih1] at hpend
      exact GrantSlot.noConfusion hpend
    | settleErr e hpend =>
      rw [ih1] at hpend
      exact GrantSlot.noConfusion hpend
    | runCont hne hset =>
      simp [countGUM_append, runStartCont, ih1, ih2, ih3, countGUM]
    | workerReply command blob =>
      by_cases hcmd : command = "wav-delivered" <;>
        simp [countGUM_append, onWorkerMessage, hcmd, ih1, ih2, ih3, countGUM]

/-- Claim C9: the memoized grant caches failure: from any state whose grant is
rejected, every later reachable state keeps the rejection and never reaches
`recording`, no further permission request is ever issued, and a further
`start()` continuation still emits a payload-less `blocked` signal. -/
theorem rejected_grant_permanent {w : Recorder} {acts : List Action}
    {u : Recorder} {c : String} (hrej : w.userMedia = GrantSlot.rejected c)
    (hst : w.state = RecorderState.inactive) (h : ReachFrom w acts u) :
    u.userMedia = GrantSlot.rejected c ∧
    u.state = RecorderState.inactive ∧
    countGUM acts = 0 ∧
    (runStartCont (start u).1).2 = [Action.emit "blocked" none] ∧
    (runStartCont (start u).1).1.state = RecorderState.inactive := by
  obtain ⟨h1, h2, h3⟩ := rejected_preserved h hrej hst
  have hm : ¬ u.userMedia = GrantSlot.noPromise := by
    rw [h1]; exact fun hx => GrantSlot.noConfusion hx
  refine ⟨h1, h2, h3, ?_, ?_⟩
  · simp [start, grabMic, hm, runStartCont, h1]
  · simp [start, grabMic, hm, runStartCont, h1, h2]

/-- Witness for C9: from a concretely rejected instance, a `start()` call
followed by its continuation emits `blocked`, stays inactive, and issues no
permission request. -/
theorem rejected_grant_permanent_witness :
    deniedDemo.userMedia = GrantSlot.rejected "permission-denied" ∧
    deniedDemo.state = RecorderState.inactive ∧
    countGUM [Action.emit "blocked" none] = 0 ∧
    (runStartCont (start deniedDemo).1).2 = [Action.emit "blocked" none] ∧
    (runStartCont (start deniedDemo).1).1.state = RecorderState.inactive :=
  rejected_grant_permanent rfl rfl
    (ReachFrom.step (ReachFrom.step (ReachFrom.refl deniedDemo)
      (Step.callStart deniedDemo))
      (Step.runCont (start deniedDemo).1 (by decide)
        (Or.inr ⟨"permission-denied", rfl⟩)))

/-- Claim C10: a `start()` call while already recording (grant resolved) sets
the state to `recording` again and emits one additional `recording` signal,
performing nothing else. -/
theorem start_while_recording (w : Recorder)
    (hs : w.state = RecorderState.recording)
    (hg : w.userMedia = GrantSlot.resolved) :
    (start w).2 = [] ∧
    (start w).1.state = RecorderState.recording ∧
    (runStartCont (start w).1).1.state = RecorderState.recording ∧
    (runStartCont (start w).1).2 = [Action.emit "recording" none] := by
  have hm : ¬ w.userMedia = GrantSlot.noPromise := by
    rw [hg]; exact fun hx => GrantSlot.noConfusion hx
  refine ⟨?_, ?_, ?_, ?_⟩ <;>
    simp [start, grabMic, runStartCont, _setState, hm, hg, hs, stateName]

/-- Witness for C10 at a concrete recording instance. -/
theorem start_while_recording_witness :
    (start recordingDemo).2 = [] ∧
    (start recordingDemo).1.state = RecorderState.recording ∧
    (runStartCont (start recordingDemo).1).1.state = RecorderState.recording ∧
    (runStartCont (start recordingDemo).1).2 = [Action.emit "recording" none] :=
  start_while_recording recordingDemo rfl rfl

end RecorderSpec
